import Mathlib

/-!
Shallow embedding of `nsga-net/search/train_search.py`, the single-genome
fitness-evaluation harness of a NAS loop: `main` (genome dispatch, epoch loop,
validation inference, FLOP profiling, summary write, result record), `train`
(one training epoch with metric accumulation) and `infer` (one validation pass).

Conventions of the embedding:
* A Python exception is an `Except PyError` result.
* A float that may be NaN/Inf (a loss scalar) is an `Option ℚ`: `none` is
  NaN/Inf, `some q` a finite value; `nadd` is the NaN-propagating addition.
  Exact rationals stand in for floats (rounding is not at issue in any claim).
* A batch of the data stream is reduced to what the metric code observes:
  the per-example pair (top-1 predicted label, target label), the scalar
  `loss.item()` of the primary head and of the auxiliary head.
* The network itself is opaque; the bits of its state the harness manipulates
  (train/eval mode, drop-path rate, FLOP instrumentation) form `ModelState`.
* Genome decoding and network construction live in modules outside this file's
  source (`search.micro_encoding`, `models.*`); they enter as opaque function
  parameters, so theorems can quantify over them.
-/

/-- The exceptions the embedded code can raise.  `unsupportedSearchSpace`
models `raise NameError('Unknown search space type')` (train_search.py line 71),
the realization of the spec's `UnsupportedSearchSpace`.  `trainingDiverged`
names the spec's `TrainingDiverged`; no construct of the source produces it. -/
inductive PyError where
  | typeError
  | keyError
  | zeroDivisionError
  | unsupportedSearchSpace
  | ioError
  | trainingDiverged
  deriving DecidableEq, Repr

/-- A Python scalar value as stored in the `train_params` dict and in the
returned result dict. -/
inductive PVal where
  | pbool : Bool → PVal
  | pnat : ℕ → PVal
  | prat : ℚ → PVal
  deriving DecidableEq, Repr

/-- One batch of a data stream, reduced to what the metric code of
`train`/`infer` observes: per example the pair (argmax prediction of the
primary output, target label), plus `loss.item()` of the primary criterion
(`lossItem`) and of the auxiliary criterion (`auxLossItem`); `none` models a
NaN/Inf loss value. -/
structure Batch where
  examples : List (ℕ × ℕ)
  lossItem : Option ℚ
  auxLossItem : Option ℚ
  deriving DecidableEq, Repr

/-- NaN-propagating addition on loss scalars. -/
def nadd : Option ℚ → Option ℚ → Option ℚ
  | some a, some b => some (a + b)
  | _, _ => none

/-- `targets.size(0)`. -/
def batchSize (b : Batch) : ℕ := b.examples.length

/-- `predicted.eq(targets).sum().item()`: number of examples of the batch whose
argmax prediction equals the target. -/
def batchCorrect (b : Batch) : ℕ := b.examples.countP fun pt => pt.1 == pt.2

/-- The loss that reaches `train_loss` for one training batch
(train_search.py lines 188-192): the primary cross-entropy, plus
`auxiliary_weight * loss_aux` when `params['auxiliary']` is set. -/
def batchLoss (auxiliary : Bool) (auxWeight : ℚ) (b : Batch) : Option ℚ :=
  if auxiliary then nadd b.lossItem (b.auxLossItem.map fun x => auxWeight * x)
  else b.lossItem

/-- The accumulator loop of `infer` (train_search.py lines 220-228): for each
batch, `test_loss += loss.item()`, `correct += predicted.eq(targets).sum()`,
`total += targets.size(0)`.  Returns `(test_loss, correct, total)`.
The gradient-free forward pass itself has no observable effect here. -/
def inferSteps : List Batch → Option ℚ → ℕ → ℕ → Option ℚ × ℕ × ℕ
  | [], tl, c, t => (tl, c, t)
  | b :: bs, tl, c, t =>
      inferSteps bs (nadd tl b.lossItem) (c + batchCorrect b) (t + batchSize b)

/-- `infer(valid_queue, net, criterion)` (train_search.py lines 213-232):
accumulate over the stream, then `acc = 100.*correct/total` and
`test_loss/total`.  When `total = 0` the first division raises
`ZeroDivisionError` in Python. -/
def inferRun (batches : List Batch) : Except PyError (ℚ × Option ℚ) :=
  let r := inferSteps batches (some 0) 0 0
  if r.2.2 = 0 then .error .zeroDivisionError
  else .ok (100 * (r.2.1 : ℚ) / (r.2.2 : ℚ), r.1.map fun x => x / (r.2.2 : ℚ))

/-- The total-examples-seen counter `total` accumulated by `infer`. -/
def inferTotalSeen (batches : List Batch) : ℕ := (inferSteps batches (some 0) 0 0).2.2

/-- The batch loop of `train` (train_search.py lines 181-207).  Arguments
after the stream: current step index, `train_loss`, `correct`, `total`.
Per batch: accumulate the three counters (lines 201-204), then the report
check `if step % params['log_interval'] == 0` (line 206) — a missing
`log_interval` key raises `KeyError`, `step % 0` raises `ZeroDivisionError`,
and the report line itself divides by `total`, raising `ZeroDivisionError`
when `total` is still zero.  The optimizer/scaler work of lines 195-199
mutates only the opaque network parameters and is not observable in the
returned metrics. -/
def trainSteps (auxiliary : Bool) (auxWeight : ℚ) (logInterval : Option ℕ) :
    List Batch → ℕ → Option ℚ → ℕ → ℕ → Except PyError (Option ℚ × ℕ × ℕ)
  | [], _, tl, c, t => .ok (tl, c, t)
  | b :: bs, step, tl, c, t =>
      let tl' := nadd tl (batchLoss auxiliary auxWeight b)
      let c' := c + batchCorrect b
      let t' := t + batchSize b
      match logInterval with
      | none => .error .keyError
      | some n =>
          if n = 0 then .error .zeroDivisionError
          else if step % n = 0 ∧ t' = 0 then .error .zeroDivisionError
          else trainSteps auxiliary auxWeight (some n) bs (step + 1) tl' c' t'

/-- `train(train_queue, net, criterion, optimizer, params, device)`
(train_search.py lines 174-209): run the batch loop, then return
`(100. * correct / total, train_loss / total)`; `total = 0` raises
`ZeroDivisionError`.  A NaN `train_loss` divided by `total` stays NaN. -/
def trainRun (auxiliary : Bool) (auxWeight : ℚ) (logInterval : Option ℕ)
    (batches : List Batch) : Except PyError (ℚ × Option ℚ) := do
  let r ← trainSteps auxiliary auxWeight logInterval batches 0 (some 0) 0 0
  if r.2.2 = 0 then .error .zeroDivisionError
  else pure (100 * (r.2.1 : ℚ) / (r.2.2 : ℚ), r.1.map fun x => x / (r.2.2 : ℚ))

/-- Number of parameters of `def train(train_queue, net, criterion, optimizer,
params, device)` (train_search.py line 174); none has a default. -/
def trainDefParamCount : ℕ := 6

/-- Number of positional arguments of the call
`train(train_queue, model, criterion, optimizer, train_params)` in `main`
(train_search.py line 141). -/
def mainTrainCallArgCount : ℕ := 5

/-- Python call semantics for positional arity: a call supplying `given`
arguments to a function whose def takes `required` (no defaults, no varargs)
raises `TypeError` before the body runs unless they match. -/
def pyCall {α : Type} (required given : ℕ) (body : Unit → Except PyError α) :
    Except PyError α :=
  if given = required then body () else .error .typeError

/-- The `train_params` dict built by `main` (train_search.py lines 54-59):
keys `auxiliary`, `auxiliary_weight` (0.4 = 2/5), `grad_clip` (5),
`report_freq` (50). -/
def main_train_params (auxiliary : Bool) : List (String × PVal) :=
  [("auxiliary", .pbool auxiliary), ("auxiliary_weight", .prat (2/5)),
   ("grad_clip", .pnat 5), ("report_freq", .pnat 50)]

/-- The value `train` reads as `params['log_interval']` from a params dict:
`none` when the key is absent (a `KeyError` at the access site). -/
def logIntervalOfParams (d : List (String × PVal)) : Option ℕ :=
  (d.lookup "log_interval").bind fun v =>
    match v with
    | .pnat n => some n
    | _ => none

/-- The call to `train` as `main` performs it (train_search.py line 141):
five positional arguments against a six-parameter def, with the params dict
of lines 54-59. -/
def trainCallFromMain (auxiliary : Bool) (tb : List Batch) :
    Except PyError (ℚ × Option ℚ) :=
  pyCall trainDefParamCount mainTrainCallArgCount fun _ =>
    trainRun auxiliary (2/5) (logIntervalOfParams (main_train_params auxiliary)) tb

/-- The epoch loop of `main` (train_search.py lines 136-142): one `train`
call per epoch (the scheduler step and drop-path assignment of lines 137-139
are modelled by `lrUsedInEpoch` and `dropRate` below). -/
def mainEpochLoop (auxiliary : Bool) (tb : List Batch) : ℕ → Except PyError Unit
  | 0 => .ok ()
  | n + 1 => do
      let _ ← trainCallFromMain auxiliary tb
      mainEpochLoop auxiliary tb n

/-- The slice of network state the harness manipulates: train/eval mode,
the drop-path rate of line 139, and the FLOP-profiling instrumentation. -/
structure ModelState where
  training : Bool
  droprate : ℚ
  flopsMethodsAttached : Bool
  flopsCountActive : Bool
  deriving DecidableEq, Repr

/-- Modelled from the spec: `add_flops_counting_methods` of
`misc.flops_counter` (module not under src/) attaches per-layer
instrumentation to the network (spec section 4.3). -/
def add_flops_counting_methods (m : ModelState) : ModelState :=
  { m with flopsMethodsAttached := true }

/-- Modelled from the spec: `start_flops_count` of `misc.flops_counter`
(module not under src/) activates op-count accumulation (spec section 4.3). -/
def start_flops_count (m : ModelState) : ModelState :=
  { m with flopsCountActive := true }

/-- Modelled from the spec: `stop_flops_count` of `misc.flops_counter`
(module not under src/) deactivates and removes the accumulation
(spec section 4.3).  `main` never calls it. -/
def stop_flops_count (m : ModelState) : ModelState :=
  { m with flopsCountActive := false }

/-- The FLOP-profiling block of `main` (train_search.py lines 147-153):
`model = add_flops_counting_methods(model)`, `model.eval()`,
`model.start_flops_count()`, one forward pass, read the cost.  No
`stop_flops_count` or removal call follows anywhere in `main`. -/
def profilePhase (m : ModelState) : ModelState :=
  let m1 := add_flops_counting_methods m
  let m2 := { m1 with training := false }
  start_flops_count m2

/-- The genome dispatch of `main` (train_search.py lines 61-71): decode and
build for `'micro'` and `'macro'`, otherwise
`raise NameError('Unknown search space type')`.  The decode and build
functions live outside this source file and are opaque parameters. -/
def mainDispatch {G A M : Type} (decodeMicro decodeMacro : G → A)
    (buildMicro buildMacro : A → M) (search_space : String) (genome : G) :
    Except PyError M :=
  if search_space = "micro" then .ok (buildMicro (decodeMicro genome))
  else if search_space = "macro" then .ok (buildMacro (decodeMacro genome))
  else .error .unsupportedSearchSpace

/-- `main` (train_search.py lines 32-171) as observed through its result:
dispatch on the search space, run the epoch loop, run `infer` once, profile
FLOPs, write the summary file (an opaque `Except` outcome: the `with open`
block of lines 158-163 has no handler, so a failing write raises), and
return the result dict of lines 167-171.  `n_params` and `n_flops` are the
externally computed parameter and FLOP counts. -/
def mainRun {G A : Type} (decodeMicro decodeMacro : G → A)
    (buildMicro buildMacro : A → ModelState) (search_space : String) (genome : G)
    (epochs : ℕ) (auxiliary : Bool) (trainBatches validBatches : List Batch)
    (n_params n_flops : ℚ) (writeRes : Except PyError Unit) :
    Except PyError (List (String × PVal)) := do
  let model ← mainDispatch decodeMicro decodeMacro buildMicro buildMacro
    search_space genome
  let _ ← mainEpochLoop auxiliary trainBatches epochs
  let r ← inferRun validBatches
  let _ := profilePhase { model with training := false }
  let _ ← writeRes
  pure [("valid_acc", PVal.prat r.1), ("params", PVal.prat n_params),
        ("flops", PVal.prat n_flops)]

/-- The result-record field list exactly as the spec states it
(spec section 3, ResultRecord), for comparison with the dict `main` returns. -/
def specResultRecordFields : List String :=
  ["genome", "architecture_description", "param_count_millions",
   "flop_count_millions", "validation_accuracy", "validation_loss"]

/-- The hard-coded initial learning rate of `main` (train_search.py line 45). -/
noncomputable def learning_rate : ℝ := 0.025

/-- `torch.optim.lr_scheduler.CosineAnnealingLR(optimizer, epochs)` with its
default `eta_min = 0` (train_search.py line 134): the learning rate after `t`
scheduler steps is `lr0 * (1 + cos (π t / T)) / 2`. -/
noncomputable def cosineAnnealingLR (lr0 : ℝ) (T t : ℕ) : ℝ :=
  lr0 * (1 + Real.cos (Real.pi * t / T)) / 2

/-- The learning rate in effect while epoch `e` trains: `scheduler.step()` at
the top of the loop body (train_search.py line 137) runs before the `train`
call, so the optimizer holds the schedule value at step `e + 1`. -/
noncomputable def lrUsedInEpoch (lr0 : ℝ) (T e : ℕ) : ℝ :=
  cosineAnnealingLR lr0 T (e + 1)

/-- The drop-path rate assigned before epoch `epoch` trains
(train_search.py line 139): `model.droprate = drop_path_prob * epoch / epochs`. -/
def dropRate (drop_path_prob : ℚ) (epochs epoch : ℕ) : ℚ :=
  drop_path_prob * (epoch : ℚ) / (epochs : ℚ)

/-- The micro genome of the C1-style scenario, shaped like `[[[[3,0],[3,1]]]]`. -/
def scenarioGenome : List (List (List (List ℤ))) := [[[[3, 0], [3, 1]]]]

/-- A one-batch validation stream with one correctly classified example and a
finite loss, used as concrete input. -/
def oneGoodBatch : List Batch := [⟨[(0, 0)], some 1, some 0⟩]

/-! ## Helper lemmas -/

theorem nadd_none_right (x : Option ℚ) : nadd x none = none := by
  cases x <;> rfl

theorem nadd_none_left (x : Option ℚ) : nadd none x = none := by
  cases x <;> rfl

theorem batchCorrect_le_batchSize (b : Batch) : batchCorrect b ≤ batchSize b :=
  List.countP_le_length _

theorem inferSteps_counts (bs : List Batch) :
    ∀ (tl : Option ℚ) (c t : ℕ),
      (inferSteps bs tl c t).2.1 = c + (bs.map batchCorrect).sum ∧
      (inferSteps bs tl c t).2.2 = t + (bs.map batchSize).sum := by
  induction bs with
  | nil => intro tl c t; simp [inferSteps]
  | cons b bs ih =>
      intro tl c t
      have h := ih (nadd tl b.lossItem) (c + batchCorrect b) (t + batchSize b)
      simp only [inferSteps, h.1, h.2, List.map_cons, List.sum_cons]
      omega

theorem inferRun_ok (batches : List Batch) (h1 : batches ≠ [])
    (h2 : ∀ b ∈ batches, b.examples ≠ []) :
    ∃ p, inferRun batches = .ok p := by
  have hc := inferSteps_counts batches (some 0) 0 0
  have hpos : 0 < (batches.map batchSize).sum := by
    cases batches with
    | nil => exact absurd rfl h1
    | cons b bs =>
        have hb : b.examples ≠ [] := h2 b (List.mem_cons_self b bs)
        have : 0 < batchSize b := List.length_pos.mpr hb
        simp only [List.map_cons, List.sum_cons]
        omega
  have hne : (inferSteps batches (some 0) 0 0).2.2 ≠ 0 := by
    rw [hc.2]; omega
  refine ⟨(100 * ((inferSteps batches (some 0) 0 0).2.1 : ℚ) /
      ((inferSteps batches (some 0) 0 0).2.2 : ℚ),
      (inferSteps batches (some 0) 0 0).1.map fun x =>
        x / ((inferSteps batches (some 0) 0 0).2.2 : ℚ)), ?_⟩
  simp only [inferRun]
  rw [if_neg hne]

theorem trainSteps_run (w : ℚ) (n : ℕ) (hn : n ≠ 0) :
    ∀ (bs : List Batch), (∀ b ∈ bs, b.examples ≠ []) →
      ∀ (step : ℕ) (tl : Option ℚ) (c t : ℕ),
        trainSteps false w (some n) bs step tl c t =
          .ok (bs.foldl (fun a b => nadd a (batchLoss false w b)) tl,
               c + (bs.map batchCorrect).sum, t + (bs.map batchSize).sum) := by
  intro bs
  induction bs with
  | nil => intro _ step tl c t; simp [trainSteps]
  | cons b bs ih =>
      intro hex step tl c t
      have hbex : b.examples ≠ [] := hex b (List.mem_cons_self b bs)
      have hbsize : 0 < batchSize b := List.length_pos.mpr hbex
      have hcond : ¬(step % n = 0 ∧ t + batchSize b = 0) := by
        rintro ⟨-, h0⟩; omega
      simp only [trainSteps, if_neg hn, if_neg hcond]
      rw [ih (fun x hx => hex x (List.mem_cons_of_mem b hx)) (step + 1)
        (nadd tl (batchLoss false w b)) (c + batchCorrect b) (t + batchSize b)]
      simp only [List.foldl_cons, List.map_cons, List.sum_cons, Except.ok.injEq,
        Prod.mk.injEq]
      refine ⟨by trivial, by omega, by omega⟩

theorem foldl_nadd_none (w : ℚ) :
    ∀ (bs : List Batch), bs ≠ [] → (∀ b ∈ bs, b.lossItem = none) →
      ∀ (tl : Option ℚ),
        bs.foldl (fun a b => nadd a (batchLoss false w b)) tl = none := by
  intro bs
  induction bs with
  | nil => intro h; exact absurd rfl h
  | cons b bs ih =>
      intro _ hloss tl
      have hbloss : batchLoss false w b = none := by
        rw [batchLoss, if_neg (by simp)]
        exact hloss b (List.mem_cons_self b bs)
      cases bs with
      | nil => simp [List.foldl_cons, hbloss, nadd_none_right]
      | cons b2 bs2 =>
          rw [List.foldl_cons]
          exact ih (by simp) (fun x hx => hloss x (List.mem_cons_of_mem b hx)) _

/-! ## Claim theorems -/

/-- C9: on an empty validation stream `infer` divides a zero example count:
`100.*correct/total` with `total = 0` raises `ZeroDivisionError`, so `infer`
fails instead of returning a defined result — a non-empty validation stream is
an unstated precondition. -/
theorem c9_infer_empty_stream_fails : inferRun [] = .error .zeroDivisionError := rfl

/-- C10, as stated, is false: with the default `drop_path_prob = 0` (the value
the module's own entry point passes) and `epochs = 1`, the rate assigned before
epoch 0 is `0`, which is not strictly below the configured `drop_path_prob = 0`. -/
theorem c10_counterexample : dropRate 0 1 0 = 0 ∧ ¬ dropRate 0 1 0 < 0 := by
  constructor
  · simp [dropRate]
  · simp [dropRate]

/-- C10 amended: before epoch `e` the drop-path rate is
`drop_path_prob * e / epochs`; it is `0` for the first epoch, never decreases
from one epoch to the next, never exceeds `drop_path_prob`, and is strictly
below `drop_path_prob` whenever `drop_path_prob` is positive. -/
theorem c10_droprate_amended (p : ℚ) (epochs e : ℕ) (hp : 0 ≤ p)
    (he : e < epochs) :
    dropRate p epochs 0 = 0 ∧
    dropRate p epochs e ≤ dropRate p epochs (e + 1) ∧
    dropRate p epochs e ≤ p ∧
    (0 < p → dropRate p epochs e < p) := by
  have hE : (0 : ℚ) < (epochs : ℚ) := by exact_mod_cast Nat.pos_of_ne_zero (by omega)
  have heE : (e : ℚ) < (epochs : ℚ) := by exact_mod_cast (by omega : e < epochs)
  refine ⟨by simp [dropRate], ?_, ?_, ?_⟩
  · unfold dropRate
    have h1 : (e : ℚ) ≤ ((e + 1 : ℕ) : ℚ) := by push_cast; linarith
    gcongr
  · unfold dropRate
    rw [div_le_iff₀ hE]
    nlinarith
  · intro hp0
    unfold dropRate
    rw [div_lt_iff₀ hE]
    nlinarith

/-- C6, as stated, is false: the profiling block of `main` attaches the FLOP
instrumentation and starts counting but never stops or removes it, so the
network state after profiling differs from the state before. -/
theorem c6_counterexample :
    profilePhase ⟨true, 0, false, false⟩ = ⟨false, 0, true, true⟩ ∧
    profilePhase ⟨true, 0, false, false⟩ ≠ ⟨true, 0, false, false⟩ := by
  constructor
  · rfl
  · intro h
    have hc := congrArg ModelState.flopsCountActive h
    simp [profilePhase, start_flops_count, add_flops_counting_methods] at hc

/-- C6 amended: after the profiling block of `main` the instrumentation is
still attached and counting is still active (and the model is left in eval
mode); only the drop-path rate is untouched.  Profiling is not transparent. -/
theorem c6_instrumentation_persists (m : ModelState) :
    (profilePhase m).flopsMethodsAttached = true ∧
    (profilePhase m).flopsCountActive = true ∧
    (profilePhase m).training = false ∧
    (profilePhase m).droprate = m.droprate := by
  simp [profilePhase, start_flops_count, add_flops_counting_methods]

/-- C5: any search-space tag other than `'micro'` and `'macro'` makes `main`
raise at the dispatch (`NameError('Unknown search space type')`, the
realization of `UnsupportedSearchSpace`), whatever the decode and build
functions do and before any of them is applied — the result is the same for
every decoder, builder and genome. -/
theorem c5_unknown_search_space_fails_fast {G A M : Type}
    (decodeMicro decodeMacro : G → A) (buildMicro buildMacro : A → M)
    (s : String) (g : G) (h1 : s ≠ "micro") (h2 : s ≠ "macro") :
    mainDispatch decodeMicro decodeMacro buildMicro buildMacro s g =
      .error .unsupportedSearchSpace := by
  simp [mainDispatch, h1, h2]

theorem c5_unknown_search_space_fails_fast_witness :
    ("evolved" ≠ "micro" ∧ "evolved" ≠ "macro") ∧
    mainDispatch (fun g : Unit => g) (fun g => g) (fun a => a) (fun a => a)
      "evolved" () = .error .unsupportedSearchSpace :=
  ⟨⟨by decide, by decide⟩,
    c5_unknown_search_space_fails_fast _ _ _ _ _ _ (by decide) (by decide)⟩

theorem sum_batchSize_pos (batches : List Batch) (h1 : batches ≠ [])
    (h2 : ∀ b ∈ batches, b.examples ≠ []) :
    0 < (batches.map batchSize).sum := by
  cases batches with
  | nil => exact absurd rfl h1
  | cons b bs =>
      have hb : b.examples ≠ [] := h2 b (List.mem_cons_self b bs)
      have : 0 < batchSize b := List.length_pos.mpr hb
      simp only [List.map_cons, List.sum_cons]
      omega

/-- A two-batch training stream on which every batch's loss is NaN. -/
def nanBatchStream : List Batch :=
  [⟨[(0, 0)], none, none⟩, ⟨[(1, 1), (1, 0)], none, none⟩]

/-- C1: the code cannot run the spec's valid-micro-genome scenario to
completion.  With `epochs = 1` the first loop iteration calls `train` with
five positional arguments while its def takes six, so Python raises
`TypeError` and `main` returns no record — for any decoder, builder, data
stream and write outcome; here at the `[[[[3,0],[3,1]]]]` genome with
non-empty streams.  A second latent slip: the `train_params` dict `main`
passes has no `log_interval` key, which `train` reads every batch. -/
theorem c1_scenario_train_call_type_error :
    mainRun (fun _ : List (List (List (List ℤ))) => ()) (fun _ => ())
      (fun _ => ⟨true, 0, false, false⟩) (fun _ => ⟨true, 0, false, false⟩)
      "micro" scenarioGenome 1 false oneGoodBatch oneGoodBatch 1 1 (.ok ()) =
      .error .typeError ∧
    logIntervalOfParams (main_train_params false) = none := by
  constructor
  · rfl
  · rfl

/-- C2, as stated, is false: on a stream whose only batch has a NaN loss,
`train` does not raise `TrainingDiverged`; it returns metrics whose mean loss
is the NaN accumulated from the batch losses. -/
theorem c2_counterexample :
    trainRun false (2/5) (some 50) [⟨[(0, 0)], none, none⟩] = .ok (100, none) ∧
    trainRun false (2/5) (some 50) [⟨[(0, 0)], none, none⟩] ≠
      .error .trainingDiverged := by
  have h : trainRun false (2/5) (some 50) [⟨[(0, 0)], none, none⟩] = .ok (100, none) := by
    simp [trainRun, trainSteps, nadd, batchCorrect, batchSize, batchLoss, bind,
      Except.bind, pure, Except.pure]
  exact ⟨h, by rw [h]; intro hc; cases hc⟩

/-- C2 amended: when every batch of the epoch produces a NaN/Inf loss (streams
of non-empty batches, a usable `log_interval`), `train` completes normally and
returns `(accuracy, NaN)` — the NaN losses are accumulated into `train_loss`
and reported; no `TrainingDiverged` (or any other exception) is raised, since
no divergence check exists in the code. -/
theorem c2_nan_metrics_returned (w : ℚ) (n : ℕ) (batches : List Batch)
    (hn : n ≠ 0) (hne : batches ≠ [])
    (hloss : ∀ b ∈ batches, b.lossItem = none)
    (hex : ∀ b ∈ batches, b.examples ≠ []) :
    ∃ acc : ℚ, trainRun false w (some n) batches = .ok (acc, none) ∧
      trainRun false w (some n) batches ≠ .error .trainingDiverged := by
  have hrun := trainSteps_run w n hn batches hex 0 (some 0) 0 0
  have hfold := foldl_nadd_none w batches hne hloss (some 0)
  have hpos := sum_batchSize_pos batches hne hex
  rw [hfold] at hrun
  have hok : trainRun false w (some n) batches =
      .ok (100 * ((0 + (batches.map batchCorrect).sum : ℕ) : ℚ) /
        ((0 + (batches.map batchSize).sum : ℕ) : ℚ), none) := by
    simp only [trainRun, hrun, bind, Except.bind]
    rw [if_neg (by omega)]
    simp [pure, Except.pure]
  exact ⟨_, hok, by rw [hok]; intro hc; cases hc⟩

theorem c2_nan_metrics_returned_witness :
    ((50 : ℕ) ≠ 0 ∧ nanBatchStream ≠ [] ∧
      (∀ b ∈ nanBatchStream, b.lossItem = none) ∧
      (∀ b ∈ nanBatchStream, b.examples ≠ [])) ∧
    ∃ acc : ℚ, trainRun false (2/5) (some 50) nanBatchStream = .ok (acc, none) ∧
      trainRun false (2/5) (some 50) nanBatchStream ≠ .error .trainingDiverged :=
  ⟨⟨by decide, by decide, by decide, by decide⟩,
    c2_nan_metrics_returned (2/5) 50 nanBatchStream (by decide) (by decide)
      (by decide) (by decide)⟩

theorem c10_droprate_amended_witness :
    ((0 : ℚ) ≤ 1/2 ∧ 0 < 1) ∧
    (dropRate (1/2) 1 0 = 0 ∧
     dropRate (1/2) 1 0 ≤ dropRate (1/2) 1 (0 + 1) ∧
     dropRate (1/2) 1 0 ≤ 1/2 ∧
     (0 < (1/2 : ℚ) → dropRate (1/2) 1 0 < 1/2)) :=
  ⟨⟨by norm_num, by norm_num⟩,
    c10_droprate_amended (1/2) 1 0 (by norm_num) (by norm_num)⟩

theorem cosineAnnealingLR_lt (lr0 : ℝ) (T t : ℕ) (h0 : 0 < lr0) (ht : 0 < t)
    (htT : t ≤ T) : cosineAnnealingLR lr0 T t < lr0 := by
  have hT : (0 : ℝ) < (T : ℝ) := by exact_mod_cast (by omega : 0 < T)
  have htR : (0 : ℝ) < (t : ℝ) := by exact_mod_cast ht
  have htTR : (t : ℝ) ≤ (T : ℝ) := by exact_mod_cast htT
  have hπ := Real.pi_pos
  have hx1 : 0 < Real.pi * (t : ℝ) / (T : ℝ) := by positivity
  have hx2 : Real.pi * (t : ℝ) / (T : ℝ) ≤ Real.pi := by
    rw [div_le_iff₀ hT]
    nlinarith
  have hcos : Real.cos (Real.pi * (t : ℝ) / (T : ℝ)) < 1 := by
    have h := Real.strictAntiOn_cos
      (Set.mem_Icc.mpr ⟨le_refl (0 : ℝ), hπ.le⟩)
      (Set.mem_Icc.mpr ⟨hx1.le, hx2⟩) hx1
    simpa [Real.cos_zero] using h
  unfold cosineAnnealingLR
  nlinarith

theorem cosineAnnealingLR_antitone (lr0 : ℝ) (T s t : ℕ) (h0 : 0 < lr0)
    (hT : 0 < T) (hst : s ≤ t) (htT : t ≤ T) :
    cosineAnnealingLR lr0 T t ≤ cosineAnnealingLR lr0 T s := by
  have hTR : (0 : ℝ) < (T : ℝ) := by exact_mod_cast hT
  have hstR : (s : ℝ) ≤ (t : ℝ) := by exact_mod_cast hst
  have htTR : (t : ℝ) ≤ (T : ℝ) := by exact_mod_cast htT
  have hπ := Real.pi_pos
  have hxs : 0 ≤ Real.pi * (s : ℝ) / (T : ℝ) := by positivity
  have hxt : Real.pi * (t : ℝ) / (T : ℝ) ≤ Real.pi := by
    rw [div_le_iff₀ hTR]
    nlinarith
  have hxst : Real.pi * (s : ℝ) / (T : ℝ) ≤ Real.pi * (t : ℝ) / (T : ℝ) := by
    have : Real.pi * (s : ℝ) ≤ Real.pi * (t : ℝ) := by nlinarith
    exact div_le_div_of_nonneg_right this hTR.le
  have hcos := Real.cos_le_cos_of_nonneg_of_le_pi hxs hxt hxst
  unfold cosineAnnealingLR
  nlinarith

/-- C3, as stated, is false: because `scheduler.step()` runs at the top of the
loop body before training, the learning rate in effect during epoch 0 is the
cosine value at step 1, not the configured initial rate.  With `epochs = 1`
(the spec's own scenario budget) and the configured `learning_rate = 0.025`,
epoch 0 trains at learning rate `0`, not `0.025`. -/
theorem c3_counterexample :
    lrUsedInEpoch learning_rate 1 0 = 0 ∧
    lrUsedInEpoch learning_rate 1 0 ≠ learning_rate := by
  have h : lrUsedInEpoch learning_rate 1 0 = 0 := by
    unfold lrUsedInEpoch cosineAnnealingLR
    norm_num [Real.cos_pi]
  refine ⟨h, ?_⟩
  rw [h]
  unfold learning_rate
  norm_num

/-- C3 amended: the learning rate used during epoch `e` is the cosine schedule
evaluated at step `e + 1` (one step ahead of the spec's intent).  It is
strictly below the configured initial learning rate already at epoch 0, and it
is non-increasing from each epoch to the next; the schedule is still advanced
exactly once per epoch, at the top of the loop, never mid-epoch. -/
theorem c3_lr_schedule_amended (lr0 : ℝ) (T e : ℕ) (h0 : 0 < lr0)
    (he : e + 1 < T) :
    lrUsedInEpoch lr0 T 0 < lr0 ∧
    lrUsedInEpoch lr0 T (e + 1) ≤ lrUsedInEpoch lr0 T e := by
  constructor
  · exact cosineAnnealingLR_lt lr0 T 1 h0 (by omega) (by omega)
  · exact cosineAnnealingLR_antitone lr0 T (e + 1) (e + 1 + 1) h0 (by omega)
      (by omega) (by omega)

theorem c3_lr_schedule_amended_witness :
    ((0 : ℝ) < 1 ∧ 0 + 1 < 3) ∧
    (lrUsedInEpoch 1 3 0 < 1 ∧ lrUsedInEpoch 1 3 (0 + 1) ≤ lrUsedInEpoch 1 3 0) :=
  ⟨⟨by norm_num, by norm_num⟩,
    c3_lr_schedule_amended 1 3 0 (by norm_num) (by norm_num)⟩

/-- C8: on a non-empty validation stream of non-empty batches, `infer`
succeeds, its accuracy lies in `[0, 100]`, and its `total` counter equals the
sum of the batch sizes of the stream — each example counted exactly once. -/
theorem c8_infer_accuracy_and_count (batches : List Batch)
    (h1 : batches ≠ []) (h2 : ∀ b ∈ batches, b.examples ≠ []) :
    ∃ acc ml, inferRun batches = .ok (acc, ml) ∧
      0 ≤ acc ∧ acc ≤ 100 ∧
      inferTotalSeen batches = (batches.map batchSize).sum := by
  have hc := inferSteps_counts batches (some 0) 0 0
  have hpos := sum_batchSize_pos batches h1 h2
  have hne : (inferSteps batches (some 0) 0 0).2.2 ≠ 0 := by
    rw [hc.2]; omega
  have hCle : (inferSteps batches (some 0) 0 0).2.1 ≤
      (inferSteps batches (some 0) 0 0).2.2 := by
    rw [hc.1, hc.2]
    have hs := List.sum_le_sum (l := batches) (f := batchCorrect) (g := batchSize)
      (fun b _ => batchCorrect_le_batchSize b)
    omega
  have hTpos : (0 : ℚ) < ((inferSteps batches (some 0) 0 0).2.2 : ℚ) := by
    exact_mod_cast Nat.pos_of_ne_zero hne
  refine ⟨100 * ((inferSteps batches (some 0) 0 0).2.1 : ℚ) /
      ((inferSteps batches (some 0) 0 0).2.2 : ℚ),
    (inferSteps batches (some 0) 0 0).1.map
      (fun x => x / ((inferSteps batches (some 0) 0 0).2.2 : ℚ)), ?_, ?_, ?_, ?_⟩
  · simp only [inferRun]
    rw [if_neg hne]
  · positivity
  · rw [div_le_iff₀ hTpos]
    have hCleR : ((inferSteps batches (some 0) 0 0).2.1 : ℚ) ≤
        ((inferSteps batches (some 0) 0 0).2.2 : ℚ) := by exact_mod_cast hCle
    nlinarith
  · unfold inferTotalSeen
    rw [hc.2]
    omega

theorem c8_infer_accuracy_and_count_witness :
    (oneGoodBatch ≠ [] ∧ ∀ b ∈ oneGoodBatch, b.examples ≠ []) ∧
    ∃ acc ml, inferRun oneGoodBatch = .ok (acc, ml) ∧
      0 ≤ acc ∧ acc ≤ 100 ∧
      inferTotalSeen oneGoodBatch = (oneGoodBatch.map batchSize).sum :=
  ⟨⟨by decide, by decide⟩,
    c8_infer_accuracy_and_count oneGoodBatch (by decide) (by decide)⟩

/-- C4, as stated, is false: a successful evaluation returns a record with
exactly the three keys `valid_acc`, `params`, `flops` — not the six fields the
spec lists; in particular `validation_loss` (computed by `infer` but
discarded), `genome` and `architecture_description` are not in the record. -/
theorem c4_counterexample :
    mainRun (fun _ : Unit => ()) (fun _ => ()) (fun _ => ⟨true, 0, false, false⟩)
      (fun _ => ⟨true, 0, false, false⟩) "micro" () 0 false [] oneGoodBatch
      (37/100) (26/5) (.ok ()) =
      .ok [("valid_acc", PVal.prat 100), ("params", PVal.prat (37/100)),
           ("flops", PVal.prat (26/5))] ∧
    [("valid_acc", PVal.prat 100), ("params", PVal.prat (37/100)),
     ("flops", PVal.prat (26/5))].map Prod.fst ≠ specResultRecordFields ∧
    "validation_loss" ∉ [("valid_acc", PVal.prat 100), ("params", PVal.prat (37/100)),
     ("flops", PVal.prat (26/5))].map Prod.fst := by
  refine ⟨?_, by decide, by decide⟩
  simp [mainRun, mainDispatch, mainEpochLoop, inferRun, inferSteps, nadd,
    batchCorrect, batchSize, oneGoodBatch, bind, Except.bind, pure, Except.pure]

/-- C4 amended: whenever `main` returns a record at all, that record has
exactly the keys `valid_acc`, `params`, `flops`, in that order, whatever the
genome, search space, budget, streams and write outcome were. -/
theorem c4_record_fields_amended {G A : Type} (decodeMicro decodeMacro : G → A)
    (buildMicro buildMacro : A → ModelState) (s : String) (g : G) (epochs : ℕ)
    (auxiliary : Bool) (tb vb : List Batch) (np nf : ℚ)
    (writeRes : Except PyError Unit) (d : List (String × PVal))
    (h : mainRun decodeMicro decodeMacro buildMicro buildMacro s g epochs
      auxiliary tb vb np nf writeRes = .ok d) :
    d.map Prod.fst = ["valid_acc", "params", "flops"] := by
  unfold mainRun at h
  simp only [bind, Except.bind, pure, Except.pure] at h
  repeat' split at h
  all_goals try exact Except.noConfusion h
  injection h with h2
  rw [← h2]
  rfl

theorem c4_record_fields_amended_witness :
    mainRun (fun _ : Unit => ()) (fun _ => ()) (fun _ => ⟨false, 0, false, false⟩)
      (fun _ => ⟨false, 0, false, false⟩) "micro" () 0 false [] oneGoodBatch 1 1
      (.ok ()) =
      .ok [("valid_acc", PVal.prat 100), ("params", PVal.prat 1),
           ("flops", PVal.prat 1)] ∧
    ([("valid_acc", PVal.prat 100), ("params", PVal.prat 1),
      ("flops", PVal.prat 1)] : List (String × PVal)).map Prod.fst =
      ["valid_acc", "params", "flops"] := by
  have h : mainRun (fun _ : Unit => ()) (fun _ => ())
      (fun _ => ⟨false, 0, false, false⟩) (fun _ => ⟨false, 0, false, false⟩)
      "micro" () 0 false [] oneGoodBatch 1 1 (.ok ()) =
      .ok [("valid_acc", PVal.prat 100), ("params", PVal.prat 1),
           ("flops", PVal.prat 1)] := by
    simp [mainRun, mainDispatch, mainEpochLoop, inferRun, inferSteps, nadd,
      batchCorrect, batchSize, oneGoodBatch, bind, Except.bind, pure, Except.pure]
  exact ⟨h, c4_record_fields_amended (fun _ : Unit => ()) (fun _ => ())
    (fun _ => ⟨false, 0, false, false⟩) (fun _ => ⟨false, 0, false, false⟩)
    "micro" () 0 false [] oneGoodBatch 1 1 (.ok ()) _ h⟩

/-- C7, as stated, is false: the `with open(...)` block of `main` has no
exception handler, so on the very same evaluation that succeeds when the
write succeeds, a failing write makes `main` raise the I/O error and return
no record at all. -/
theorem c7_counterexample :
    mainRun (fun _ : Unit => ()) (fun _ => ()) (fun _ => ⟨true, 0, false, false⟩)
      (fun _ => ⟨true, 0, false, false⟩) "micro" () 0 false [] oneGoodBatch 1 1
      (.ok ()) =
      .ok [("valid_acc", PVal.prat 100), ("params", PVal.prat 1),
           ("flops", PVal.prat 1)] ∧
    mainRun (fun _ : Unit => ()) (fun _ => ()) (fun _ => ⟨true, 0, false, false⟩)
      (fun _ => ⟨true, 0, false, false⟩) "micro" () 0 false [] oneGoodBatch 1 1
      (.error .ioError) = .error .ioError := by
  constructor
  · simp [mainRun, mainDispatch, mainEpochLoop, inferRun, inferSteps, nadd,
      batchCorrect, batchSize, oneGoodBatch, bind, Except.bind, pure, Except.pure]
  · simp [mainRun, mainDispatch, mainEpochLoop, inferRun, inferSteps, nadd,
      batchCorrect, batchSize, oneGoodBatch, bind, Except.bind]

/-- C7 amended: an error while writing the summary file propagates out of
`main` and aborts the evaluation; the result record is lost.  (Stated on runs
that reach the write step: dispatchable search space, epoch loop done, usable
validation stream.) -/
theorem c7_write_error_propagates {G A : Type} (decodeMicro decodeMacro : G → A)
    (buildMicro buildMacro : A → ModelState) (g : G) (tb vb : List Batch)
    (np nf : ℚ) (e : PyError) (h1 : vb ≠ [])
    (h2 : ∀ b ∈ vb, b.examples ≠ []) :
    mainRun decodeMicro decodeMacro buildMicro buildMacro "micro" g 0 false
      tb vb np nf (.error e) = .error e := by
  obtain ⟨p, hp⟩ := inferRun_ok vb h1 h2
  unfold mainRun
  simp [mainDispatch, mainEpochLoop, hp, bind, Except.bind]

theorem c7_write_error_propagates_witness :
    (oneGoodBatch ≠ [] ∧ ∀ b ∈ oneGoodBatch, b.examples ≠ []) ∧
    mainRun (fun _ : Unit => ()) (fun _ => ()) (fun _ => ⟨false, 0, false, false⟩)
      (fun _ => ⟨false, 0, false, false⟩) "micro" () 0 false [] oneGoodBatch 1 1
      (.error .ioError) = .error .ioError :=
  ⟨⟨by decide, by decide⟩,
    c7_write_error_propagates (fun _ : Unit => ()) (fun _ => ())
      (fun _ => ⟨false, 0, false, false⟩) (fun _ => ⟨false, 0, false, false⟩)
      () [] oneGoodBatch 1 1 .ioError (by decide) (by decide)⟩
